import Mathlib

set_option maxHeartbeats 1000000

/-!
Shallow embedding of the natal-chart Telegram bot (`src/main.py`):
input validators, sign placement, chart rendering, and the per-user
conversation state machine, together with theorems settling the
specification claims.
-/

/-! ## String primitives modelling Python `str` operations -/

/-- Model of a character counted as whitespace by Python's `str.strip`. -/
def isSpaceChar (c : Char) : Bool :=
  c = ' ' || c = '\t' || c = '\n' || c = '\r' || c = '\x0b' || c = '\x0c'

/-- Model of Python `str.strip` on a character list. -/
def trimChars (cs : List Char) : List Char :=
  ((cs.dropWhile (fun c => isSpaceChar c)).reverse.dropWhile (fun c => isSpaceChar c)).reverse

/-- Model of Python `str.strip`. -/
def pyStrip (s : String) : String := String.mk (trimChars s.data)

/-- Model of Python `str.lower` (ASCII range, which covers all inputs compared). -/
def pyLower (s : String) : String := String.mk (s.data.map Char.toLower)

/-- Numeric value of an ASCII digit character. -/
def digitVal (c : Char) : Nat := c.toNat - 48

/-- Model of Python `str.split(sep)` for a one-character separator. -/
def splitOnChar (sep : Char) : List Char → List (List Char)
  | [] => [[]]
  | c :: rest =>
    if c = sep then [] :: splitOnChar sep rest
    else
      match splitOnChar sep rest with
      | [] => [[c]]
      | l :: ls => (c :: l) :: ls

/-- Model of Python `str.startswith` on character lists. -/
def startsWithChars : List Char → List Char → Bool
  | _, [] => true
  | [], _ :: _ => false
  | c :: cs, p :: ps => c = p && startsWithChars cs ps

/-- The ASCII digit character for `k % 10`. -/
def digitChar (k : Nat) : Char := Char.ofNat (48 + k % 10)

/-- Decimal digits of a natural number (fuel-indexed helper). -/
def natDigitsAux : Nat → Nat → List Char
  | 0, _ => []
  | fuel + 1, n =>
    if n < 10 then [digitChar n]
    else natDigitsAux fuel (n / 10) ++ [digitChar (n % 10)]

/-- Decimal digits of a natural number, most significant first. -/
def natDigits (n : Nat) : List Char := natDigitsAux (n + 1) n

/-- Model of Python `str(n)` for a natural number. -/
def natRepr (n : Nat) : String := String.mk (natDigits n)

/-- Model of Python `"%02d"` formatting. -/
def pad2 (n : Nat) : String := if n < 10 then "0" ++ natRepr n else natRepr n

/-- Model of Python `"%04d"` formatting (as used by `date.isoformat`). -/
def pad4 (n : Nat) : String :=
  if n < 10 then "000" ++ natRepr n
  else if n < 100 then "00" ++ natRepr n
  else if n < 1000 then "0" ++ natRepr n
  else natRepr n

/-- Model of Python `"\n".join` (and `sep.join` generally). -/
def pyJoin (sep : String) : List String → String
  | [] => ""
  | [l] => l
  | l :: l' :: ls => l ++ sep ++ pyJoin sep (l' :: ls)

/-! ## Input validators (`parse_date`, `parse_time`, place parsing) -/

/-- Result of `parse_date`: a parsed date, the `None` "invalid" sentinel, or an
uncaught `ValueError` escaping `datetime.strptime`. -/
inductive DateResult where
  | ok (y m d : Nat)
  | invalid
  | error
deriving DecidableEq

/-- Match of the regex `\d{4}-\d{2}-\d{2}` together with the digit values. -/
def matchYMD : List Char → Option (Nat × Nat × Nat)
  | [y1, y2, y3, y4, s1, m1, m2, s2, d1, d2] =>
    if y1.isDigit && y2.isDigit && y3.isDigit && y4.isDigit && s1 == '-' &&
       m1.isDigit && m2.isDigit && s2 == '-' && d1.isDigit && d2.isDigit then
      some (1000 * digitVal y1 + 100 * digitVal y2 + 10 * digitVal y3 + digitVal y4,
            10 * digitVal m1 + digitVal m2,
            10 * digitVal d1 + digitVal d2)
    else none
  | _ => none

/-- Match of the regex `\d{2}\.\d{2}\.\d{4}` returning (day, month, year). -/
def matchDMY : List Char → Option (Nat × Nat × Nat)
  | [d1, d2, s1, m1, m2, s2, y1, y2, y3, y4] =>
    if d1.isDigit && d2.isDigit && s1 == '.' && m1.isDigit && m2.isDigit && s2 == '.' &&
       y1.isDigit && y2.isDigit && y3.isDigit && y4.isDigit then
      some (10 * digitVal d1 + digitVal d2,
            10 * digitVal m1 + digitVal m2,
            1000 * digitVal y1 + 100 * digitVal y2 + 10 * digitVal y3 + digitVal y4)
    else none
  | _ => none

/-- Gregorian leap-year rule, as used by `datetime`. -/
def isLeap (y : Nat) : Bool := y % 4 == 0 && (y % 100 != 0 || y % 400 == 0)

/-- Number of days in a month, as validated by `datetime`. -/
def daysInMonth (y m : Nat) : Nat :=
  if m == 2 then (if isLeap y then 29 else 28)
  else if m == 4 || m == 6 || m == 9 || m == 11 then 30
  else 31

/-- The calendar dates `datetime.strptime` parses without raising. -/
def validDate (y m d : Nat) : Prop :=
  1 ≤ y ∧ 1 ≤ m ∧ m ≤ 12 ∧ 1 ≤ d ∧ d ≤ daysInMonth y m

instance validDate.dec (y m d : Nat) : Decidable (validDate y m d) := by
  unfold validDate; infer_instance

/-- Embedding of `parse_date` (src/main.py lines 69-76). A string matching one of
the two format regexes but not denoting a real calendar date makes
`datetime.strptime` raise `ValueError`, modelled by `DateResult.error`. -/
def parse_date (s : String) : DateResult :=
  let t := trimChars s.data
  match matchYMD t with
  | some (y, m, d) => if validDate y m d then .ok y m d else .error
  | none =>
    match matchDMY t with
    | some (d, m, y) => if validDate y m d then .ok y m d else .error
    | none => .invalid

/-- Embedding of `parse_time` (src/main.py lines 79-86). -/
def parse_time (s : String) : Option (Nat × Nat) :=
  match trimChars s.data with
  | [h1, h2, c, m1, m2] =>
    if h1.isDigit && h2.isDigit && c == ':' && m1.isDigit && m2.isDigit then
      if 10 * digitVal h1 + digitVal h2 ≤ 23 ∧ 10 * digitVal m1 + digitVal m2 ≤ 59 then
        some (10 * digitVal h1 + digitVal h2, 10 * digitVal m1 + digitVal m2)
      else none
    else none
  | _ => none

/-- Embedding of the place normalisation in the `ASK_CITY` branch
(src/main.py lines 307-309): replace `/` by `,`, split on `,`, strip, drop empties. -/
def parse_place (text : String) : List String :=
  let normalized := text.data.map (fun c => if c = '/' then ',' else c)
  ((splitOnChar ',' normalized).map (fun p => String.mk (trimChars p))).filter
    (fun p => p != "")

/-! ## Sign placement (`deg_to_sign`) -/

/-- The zodiac sign list from `deg_to_sign` (src/main.py line 161). -/
def signs : List String :=
  ["Aries", "Taurus", "Gemini", "Cancer", "Leo", "Virgo", "Libra", "Scorpio",
   "Sagittarius", "Capricorn", "Aquarius", "Pisces"]

/-- Embedding of `deg_to_sign` (src/main.py lines 160-164): Python
`int(deg // 30) % 12` is `⌊deg/30⌋ % 12` and `deg % 30` is `deg - 30·⌊deg/30⌋`
(the remainder taking the sign of the positive divisor). Longitudes are modelled
as exact rationals. -/
def deg_to_sign (deg : ℚ) : String × ℚ :=
  let idx := (⌊deg / 30⌋ % 12).toNat
  (signs.getD idx "", deg - 30 * ⌊deg / 30⌋)

/-! ## Chart pipeline (`compute_chart`, `chart_to_text`) -/

/-- The ten celestial bodies queried by `compute_chart` (src/main.py lines 130-141). -/
inductive Body where
  | Sun | Moon | Mercury | Venus | Mars | Jupiter | Saturn | Uranus | Neptune | Pluto
deriving DecidableEq

/-- The dictionary key / display name of a body. -/
def Body.bname : Body → String
  | .Sun => "Sun"
  | .Moon => "Moon"
  | .Mercury => "Mercury"
  | .Venus => "Venus"
  | .Mars => "Mars"
  | .Jupiter => "Jupiter"
  | .Saturn => "Saturn"
  | .Uranus => "Uranus"
  | .Neptune => "Neptune"
  | .Pluto => "Pluto"

/-- The fixed body order used when building the positions dict and when rendering
(src/main.py lines 130-141 and 173). -/
def bodyOrder : List Body :=
  [.Sun, .Moon, .Mercury, .Venus, .Mars, .Jupiter, .Saturn, .Uranus, .Neptune, .Pluto]

/-- A naive civil date-time, as built by `datetime(y, m, day, hh, mm, 0)`. -/
structure PyDateTime where
  year : Int
  month : Int
  day : Int
  hour : Int
  minute : Int
  second : Int
deriving DecidableEq

/-- The chart value returned by `compute_chart`: UTC instant (ISO string),
a total mapping from body to ecliptic longitude, and the ascendant longitude. -/
structure Chart where
  utc : String
  positions : Body → ℚ
  asc : ℚ

/-- Round-half-even at integer precision, modelling CPython's decimal rounding. -/
def roundHalfEven (t : ℚ) : Int :=
  let f := ⌊t⌋
  let r := t - (f : ℚ)
  if r < 1 / 2 then f
  else if 1 / 2 < r then f + 1
  else if f % 2 = 0 then f else f + 1

/-- Model of Python `"%.1f"` formatting on an exact rational. -/
def pyFormat1f (q : ℚ) : String :=
  let n := roundHalfEven (10 * q)
  (if n < 0 then "-" else "") ++ natRepr (n.natAbs / 10) ++ "." ++ natRepr (n.natAbs % 10)

/-- One rendered line `"<Name>: <Sign> <within:.1f>°"` (src/main.py lines 171 and 175). -/
def placementLine (name : String) (deg : ℚ) : String :=
  name ++ ": " ++ (deg_to_sign deg).1 ++ " " ++ pyFormat1f (deg_to_sign deg).2 ++ "°"

/-- Embedding of `chart_to_text` (src/main.py lines 167-176). -/
def chart_to_text (chart : Chart) : String :=
  let lines := [placementLine "Ascendant" chart.asc]
  let lines := lines ++ bodyOrder.map (fun b => placementLine (Body.bname b) (chart.positions b))
  pyJoin "\n" lines

/-- ISO rendering of the UTC instant, modelling `dt_utc.isoformat()`. -/
def isoUtc (dt : PyDateTime) : String :=
  pad4 dt.year.toNat ++ "-" ++ pad2 dt.month.toNat ++ "-" ++ pad2 dt.day.toNat ++ "T" ++
    pad2 dt.hour.toNat ++ ":" ++ pad2 dt.minute.toNat ++ ":" ++ pad2 dt.second.toNat ++ "+00:00"

/-- External collaborators of the webhook, abstracted as oracles: the
`OPENAI_API_KEY` flag, geocoding, `zoneinfo` conversion to UTC (which fails on an
unknown or missing zone), `swe.julday`, `swe.calc_ut`, `swe.houses`, and the
text-generation call. -/
structure Env where
  openaiConfigured : Bool
  geocode : Option String → Option String → Option (ℚ × ℚ)
  tzToUtc : Option String → PyDateTime → Except String PyDateTime
  julday : PyDateTime → ℚ
  calcUt : ℚ → Body → Except String ℚ
  housesAsc : ℚ → ℚ → ℚ → Except String ℚ
  genAnswer : String → String → String

/-- Embedding of `compute_chart` (src/main.py lines 116-157): convert the local
time to UTC through the zone oracle (fatal on a bad identifier), get the Julian
day, query each body longitude in the fixed order, query the ascendant, and
package the chart. Any oracle failure propagates as the raised exception. -/
def compute_chart (env : Env) (lat lon : ℚ) (dtLocal : PyDateTime) (tz : Option String) :
    Except String Chart := do
  let dtUtc ← env.tzToUtc tz dtLocal
  let jd := env.julday dtUtc
  let sun ← env.calcUt jd .Sun
  let moon ← env.calcUt jd .Moon
  let mercury ← env.calcUt jd .Mercury
  let venus ← env.calcUt jd .Venus
  let mars ← env.calcUt jd .Mars
  let jupiter ← env.calcUt jd .Jupiter
  let saturn ← env.calcUt jd .Saturn
  let uranus ← env.calcUt jd .Uranus
  let neptune ← env.calcUt jd .Neptune
  let pluto ← env.calcUt jd .Pluto
  let asc ← env.housesAsc jd lat lon
  let positions : Body → ℚ := fun b =>
    match b with
    | .Sun => sun
    | .Moon => moon
    | .Mercury => mercury
    | .Venus => venus
    | .Mars => mars
    | .Jupiter => jupiter
    | .Saturn => saturn
    | .Uranus => uranus
    | .Neptune => neptune
    | .Pluto => pluto
  return { utc := isoUtc dtUtc, positions := positions, asc := asc }

/-- Embedding of `topic_label` (src/main.py lines 202-209); `None` falls through
to the dict-lookup default. -/
def topic_label (t : Option String) : String :=
  match t with
  | some "relationships" => "отношения"
  | some "career" => "работа/карьера"
  | some "money" => "деньги"
  | some "self" => "характер/личность"
  | some "general" => "общая карта"
  | _ => "общая тема"

/-! ## Session model and conversation state machine (`webhook`) -/

/-- The conversation states (string labels in src/main.py). -/
inductive BotState where
  | ASK_DATE | ASK_TIME | ASK_CITY | ASK_COUNTRY | ASK_TZ | ASK_TOPIC | ASK_FREEFORM
deriving DecidableEq

/-- The `data` record of a session (src/main.py lines 36-45). -/
structure SessionData where
  date : Option String
  time : Option String
  city : Option String
  country : Option String
  tz : Option String
  lat : Option ℚ
  lon : Option ℚ
  topic : Option String
deriving DecidableEq

/-- A per-chat session. -/
structure Session where
  state : BotState
  data : SessionData
deriving DecidableEq

/-- Embedding of `new_session` (src/main.py lines 33-46). -/
def new_session : Session :=
  { state := .ASK_DATE,
    data := { date := none, time := none, city := none, country := none,
              tz := none, lat := none, lon := none, topic := none } }

/-- Model of `map(int, s.split("-"))` unpacked into three variables: `none`
models the uncaught `ValueError` when a part is not all digits or the part
count is not three. -/
def splitInts3 (sep : Char) (s : String) : Option (Nat × Nat × Nat) :=
  match splitOnChar sep s.data with
  | [a, b, c] =>
    if a ≠ [] ∧ b ≠ [] ∧ c ≠ [] ∧ (a.all Char.isDigit ∧ b.all Char.isDigit ∧ c.all Char.isDigit) then
      some (a.foldl (fun acc ch => 10 * acc + digitVal ch) 0,
            b.foldl (fun acc ch => 10 * acc + digitVal ch) 0,
            c.foldl (fun acc ch => 10 * acc + digitVal ch) 0)
    else none
  | _ => none

/-- Model of `map(int, s.split(":"))` unpacked into two variables. -/
def splitInts2 (sep : Char) (s : String) : Option (Nat × Nat) :=
  match splitOnChar sep s.data with
  | [a, b] =>
    if a ≠ [] ∧ b ≠ [] ∧ a.all Char.isDigit ∧ b.all Char.isDigit then
      some (a.foldl (fun acc ch => 10 * acc + digitVal ch) 0,
            b.foldl (fun acc ch => 10 * acc + digitVal ch) 0)
    else none
  | _ => none

/-- An inbound Telegram update: a button callback or a text message. -/
inductive Event where
  | callback (payload : String)
  | message (rawText : String)

/-- Result of one webhook invocation: the session left in the store, the texts
sent to the chat (in order), and whether `compute_chart` was invoked. -/
structure StepResult where
  sess : Session
  sent : List String
  chartAttempted : Bool
deriving DecidableEq

/-- Outbound texts of the webhook (src/main.py), named after their branch. -/
def msgTopicChosen : String :=
  "Ок 🙂 Напиши одним сообщением, что именно хочешь разобрать по этой теме.\nНапример: «почему у меня повторяются такие отношения?» или «куда расти в карьере?»"

def msgEmptyText : String := "Напиши текстом 🙂"

def msgStart : String :=
  "Привет 🙂 Я помогу сделать натальную карту.\n\nСначала введём данные.\nВведи дату рождения (YYYY-MM-DD или DD.MM.YYYY)."

def msgReset : String :=
  "Сбросила ввод ✅\nВведи дату рождения (YYYY-MM-DD или DD.MM.YYYY)."

def msgBadDate : String := "Не поняла дату. Пример: 1992-08-14 или 14.08.1992"

def msgAskTime : String := "Отлично. Введи время рождения (HH:MM), например 07:30"

def msgBadTime : String := "Не поняла время. Пример: 07:30 (24-часовой формат)"

def msgAskCity : String := "Город рождения? (например: Barcelona)"

def msgAskTzAfterCity : String :=
  "Ок. Теперь часовой пояс в формате IANA.\nПример: Europe/Amsterdam или Europe/Madrid"

def msgAskCountry : String := "Страна рождения? (например: Russia)"

def msgAskTzAfterCountry : String :=
  "Часовой пояс в формате IANA.\nПример: Europe/Amsterdam или Europe/Madrid"

def msgBadTz : String := "Похоже на неверный формат. Пример: Europe/Amsterdam"

def msgAskTopic : String := "Теперь выбери тему 👇"

def msgNoOpenAiKey : String := "Бот запущен, но не настроен OPENAI_API_KEY."

def msgGeoMiss : String :=
  "Не смогла найти координаты города 😕\nПопробуй написать город/страну на английском или крупнее (например: Moscow, Russia)."

def msgChartError (e : String) : String :=
  "Ошибка расчёта карты 😕 (" ++ e ++ ")\nПопробуй /reset и введи данные заново."

def msgNextTopic : String := "Хочешь ещё один разбор? Выбери тему 👇"

def msgFallback : String := "Я чуть потерялась 😅 Напиши /start чтобы начать заново."

/-- The system prompt assembled in the `ASK_FREEFORM` branch (src/main.py lines 378-392). -/
def system_prompt (chartText topicText userText : String) : String :=
  "\nТы — тёплый и понятный астрологический помощник. Без мистики-страшилок, без фатализма.\nОтвечай на русском.\nФормат ответа:\n- 1 абзац: суть по запросу\n- 3–6 буллетов: что это значит + сильные стороны/риски\n- 2 практичных шага (что сделать сегодня/на неделе)\n\nДанные натальной карты (тропическая):\n"
    ++ chartText ++ "\n\nКонтекст:\n- Тема: " ++ topicText ++ "\n- Вопрос пользователя: " ++ userText ++ "\n"

/-- The `ASK_FREEFORM` branch of the webhook (src/main.py lines 344-400), after
the session has been loaded and `text` stripped. `Except.error` models an
exception escaping the handler. -/
def stepFreeform (env : Env) (sess : Session) (text : String) : Except String StepResult :=
  if env.openaiConfigured = false then
    .ok { sess := sess, sent := [msgNoOpenAiKey], chartAttempted := false }
  else
    match env.geocode sess.data.city sess.data.country with
    | none =>
      .ok { sess := { sess with state := .ASK_CITY }, sent := [msgGeoMiss],
            chartAttempted := false }
    | some (la, lo) =>
      let d1 := { sess.data with lat := some la, lon := some lo }
      match sess.data.date, sess.data.time with
      | some ds, some ts =>
        match splitInts3 '-' ds, splitInts2 ':' ts with
        | some (y, mo, dy), some (hh, mi) =>
          let dtLocal : PyDateTime :=
            { year := y, month := mo, day := dy, hour := hh, minute := mi, second := 0 }
          match compute_chart env la lo dtLocal sess.data.tz with
          | .error e =>
            .ok { sess := { sess with data := d1 }, sent := [msgChartError e],
                  chartAttempted := true }
          | .ok chart =>
            let answer := env.genAnswer
              (system_prompt (chart_to_text chart) (topic_label d1.topic) text) text
            .ok { sess := { state := .ASK_TOPIC, data := d1 },
                  sent := [answer, msgNextTopic], chartAttempted := true }
        | _, _ => .error "ValueError"
      | _, _ => .error "AttributeError"

/-- The per-state dispatch of the webhook (src/main.py lines 286-404), entered
once `text` is known to be non-empty and not a command. -/
def handle_state (env : Env) (sess : Session) (text : String) : Except String StepResult :=
  match sess.state with
      | .ASK_DATE =>
        match parse_date text with
        | .invalid => .ok { sess := sess, sent := [msgBadDate], chartAttempted := false }
        | .error => .error "ValueError"
        | .ok y m d =>
          .ok { sess := { state := .ASK_TIME,
                          data := { sess.data with
                                    date := some (pad4 y ++ "-" ++ pad2 m ++ "-" ++ pad2 d) } },
                sent := [msgAskTime], chartAttempted := false }
      | .ASK_TIME =>
        match parse_time text with
        | none => .ok { sess := sess, sent := [msgBadTime], chartAttempted := false }
        | some (h, m) =>
          .ok { sess := { state := .ASK_CITY,
                          data := { sess.data with time := some (pad2 h ++ ":" ++ pad2 m) } },
                sent := [msgAskCity], chartAttempted := false }
      | .ASK_CITY =>
        match parse_place text with
        | p0 :: p1 :: _ =>
          .ok { sess := { state := .ASK_TZ,
                          data := { sess.data with city := some p0, country := some p1 } },
                sent := [msgAskTzAfterCity], chartAttempted := false }
        | _ =>
          .ok { sess := { state := .ASK_COUNTRY,
                          data := { sess.data with city := some text } },
                sent := [msgAskCountry], chartAttempted := false }
      | .ASK_COUNTRY =>
        .ok { sess := { state := .ASK_TZ,
                        data := { sess.data with country := some text } },
              sent := [msgAskTzAfterCountry], chartAttempted := false }
      | .ASK_TZ =>
        if text.data.contains '/' = false ∨ text.data.contains ' ' = true then
          .ok { sess := sess, sent := [msgBadTz], chartAttempted := false }
        else
          .ok { sess := { state := .ASK_TOPIC,
                          data := { sess.data with tz := some text } },
                sent := [msgAskTopic], chartAttempted := false }
      | .ASK_TOPIC =>
        .ok { sess := sess, sent := [msgFallback], chartAttempted := false }
      | .ASK_FREEFORM => stepFreeform env sess text

/-- Embedding of one invocation of the `webhook` handler (src/main.py
lines 222-404) for a chat whose current session is `sess`. `Except.error`
models an exception escaping the handler. -/
def step (env : Env) (sess : Session) (ev : Event) : Except String StepResult :=
  match ev with
  | .callback payload =>
    if startsWithChars payload.data ("topic:".data) then
      .ok { sess := { state := .ASK_FREEFORM,
                      data := { sess.data with
                                topic := some (String.mk
                                  ((payload.data.dropWhile (fun c => c ≠ ':')).drop 1)) } },
            sent := [msgTopicChosen], chartAttempted := false }
    else
      .ok { sess := sess, sent := [], chartAttempted := false }
  | .message rawText =>
    let text := pyStrip rawText
    if text = "" then
      .ok { sess := sess, sent := [msgEmptyText], chartAttempted := false }
    else if pyLower text = "/start" ∨ pyLower text = "start" then
      .ok { sess := new_session, sent := [msgStart], chartAttempted := false }
    else if pyLower text = "/reset" ∨ pyLower text = "reset" then
      .ok { sess := new_session, sent := [msgReset], chartAttempted := false }
    else
      handle_state env sess text

/-- The session left behind by one webhook invocation, when no exception escaped. -/
def stepSess (env : Env) (sess : Session) (ev : Event) : Option Session :=
  match step env sess ev with
  | .ok r => some r.sess
  | .error _ => none

/-! ## Helper lemmas -/

theorem trimChars_eq_rdropWhile (cs : List Char) :
    trimChars cs =
      List.rdropWhile (fun c => isSpaceChar c) (cs.dropWhile (fun c => isSpaceChar c)) := rfl

theorem trimChars_idem (cs : List Char) : trimChars (trimChars cs) = trimChars cs := by
  rw [trimChars_eq_rdropWhile, trimChars_eq_rdropWhile]
  set p : Char → Bool := fun c => isSpaceChar c with hp
  set A := cs.dropWhile p with hA
  have hd : List.dropWhile p (List.rdropWhile p A) = List.rdropWhile p A := by
    rw [List.dropWhile_eq_self_iff]
    intro hl
    obtain ⟨t, ht⟩ := List.rdropWhile_prefix p (l := A)
    have hA0 : 0 < A.length := by
      rw [← ht, List.length_append]; omega
    have e3 : A[0]? = (List.rdropWhile p A)[0]? := by
      conv_lhs => rw [← ht]
      rw [List.getElem?_append, if_pos hl]
    have e1 : (List.rdropWhile p A)[0]? = some ((List.rdropWhile p A).get ⟨0, hl⟩) :=
      List.getElem?_eq_getElem hl
    have e2 : A[0]? = some (A.get ⟨0, hA0⟩) := List.getElem?_eq_getElem hA0
    have hAeq : List.dropWhile p A = A := by
      rw [hA]; exact List.dropWhile_idempotent p cs
    have hnp : ¬ p (A.get ⟨0, hA0⟩) = true := (List.dropWhile_eq_self_iff.mp hAeq) hA0
    have : A.get ⟨0, hA0⟩ = (List.rdropWhile p A).get ⟨0, hl⟩ := by
      have := e2.symm.trans (e3.trans e1)
      exact Option.some_injective _ this
    rw [← this]
    exact hnp
  rw [hd, List.rdropWhile_idempotent]

theorem parse_date_congr {s t : String} (h : trimChars s.data = trimChars t.data) :
    parse_date s = parse_date t := by
  unfold parse_date
  rw [h]

theorem parse_time_congr {s t : String} (h : trimChars s.data = trimChars t.data) :
    parse_time s = parse_time t := by
  unfold parse_time
  rw [h]

theorem pyStrip_data (s : String) : (pyStrip s).data = trimChars s.data := rfl

theorem parse_date_pyStrip (s : String) : parse_date (pyStrip s) = parse_date s :=
  parse_date_congr (by rw [pyStrip_data, trimChars_idem])

theorem parse_time_pyStrip (s : String) : parse_time (pyStrip s) = parse_time s :=
  parse_time_congr (by rw [pyStrip_data, trimChars_idem])

theorem stringMk_ne_of_length {cs : List Char} {s : String} (h : cs.length ≠ s.data.length) :
    String.mk cs ≠ s := by
  intro he
  exact h (congrArg (fun q => q.data.length) he)

theorem pyLower_mk (cs : List Char) :
    pyLower (String.mk cs) = String.mk (cs.map Char.toLower) := rfl

theorem matchYMD_some_length {t : List Char} {v : Nat × Nat × Nat}
    (h : matchYMD t = some v) : t.length = 10 := by
  unfold matchYMD at h
  split at h
  · simp_all
  · exact absurd h (by simp)

theorem matchDMY_some_length {t : List Char} {v : Nat × Nat × Nat}
    (h : matchDMY t = some v) : t.length = 10 := by
  unfold matchDMY at h
  split at h
  · simp_all
  · exact absurd h (by simp)

theorem parse_date_ok_trim_length {s : String} {y m d : Nat}
    (h : parse_date s = .ok y m d) : (trimChars s.data).length = 10 := by
  simp only [parse_date] at h
  rcases hm : matchYMD (trimChars s.data) with _ | v
  · rw [hm] at h
    rcases hm2 : matchDMY (trimChars s.data) with _ | v2
    · rw [hm2] at h; exact absurd h (by simp)
    · exact matchDMY_some_length hm2
  · exact matchYMD_some_length hm

theorem parse_time_some_iff (s : String) (hh mm : Nat) :
    parse_time s = some (hh, mm) ↔
      ∃ a b d e : Char, trimChars s.data = [a, b, ':', d, e] ∧
        a.isDigit = true ∧ b.isDigit = true ∧ d.isDigit = true ∧ e.isDigit = true ∧
        hh = 10 * digitVal a + digitVal b ∧ mm = 10 * digitVal d + digitVal e ∧
        hh ≤ 23 ∧ mm ≤ 59 := by
  constructor
  · intro hp
    unfold parse_time at hp
    split at hp
    next a b c d e heq =>
      split at hp
      case isTrue hcond =>
        split at hp
        case isTrue hrange =>
          simp only [Bool.and_eq_true, beq_iff_eq] at hcond
          obtain ⟨⟨⟨⟨ha, hb⟩, hc⟩, hd⟩, he⟩ := hcond
          subst hc
          injection hp with hp2
          injection hp2 with hv1 hv2
          exact ⟨a, b, d, e, heq, ha, hb, hd, he, hv1.symm, hv2.symm,
                 hv1 ▸ hrange.1, hv2 ▸ hrange.2⟩
        case isFalse => exact absurd hp (by simp)
      case isFalse => exact absurd hp (by simp)
    next => exact absurd hp (by simp)
  · rintro ⟨a, b, d, e, hlist, ha, hb, hd, he, hhh, hmm, h23, h59⟩
    subst hhh; subst hmm
    unfold parse_time
    rw [hlist]
    simp [ha, hb, hd, he, h23, h59]

/-! ## Claim theorems -/

/-- C1: the claim says the date parser never raises to its caller and returns
the "invalid" sentinel on `"2024-13-40"`. The code violates this: the input
matches the `\d{4}-\d{2}-\d{2}` regex, so `datetime.strptime` is called and
raises `ValueError` (month 13), which propagates out of `parse_date` and out of
the webhook handler. The embedding records this uncaught exception as
`DateResult.error`, and this theorem evaluates the code at the failing input. -/
theorem C1_parse_date_raises_on_2024_13_40 :
    parse_date "2024-13-40" = DateResult.error := by decide

/-- C3: sign placement is a total function of the longitude; it is periodic with
period 360, and the degrees-within-sign component always lies in [0, 30). -/
theorem C3_deg_to_sign_periodic_and_bounded (deg : ℚ) :
    deg_to_sign (deg + 360) = deg_to_sign deg ∧
    0 ≤ (deg_to_sign deg).2 ∧ (deg_to_sign deg).2 < 30 := by
  have hfloor : ⌊(deg + 360) / 30⌋ = ⌊deg / 30⌋ + 12 := by
    have h1 : (deg + 360) / 30 = deg / 30 + (12 : ℤ) := by push_cast; ring
    rw [h1, Int.floor_add_int]
  have hmod : (⌊deg / 30⌋ + 12) % 12 = ⌊deg / 30⌋ % 12 := by omega
  have hfl : (↑⌊deg / 30⌋ : ℚ) ≤ deg / 30 := Int.floor_le _
  have hfu : deg / 30 < ↑⌊deg / 30⌋ + 1 := Int.lt_floor_add_one _
  refine ⟨?_, ?_, ?_⟩
  · unfold deg_to_sign
    rw [hfloor, hmod]
    simp only [Prod.mk.injEq]
    refine ⟨trivial, ?_⟩
    push_cast
    ring
  · show 0 ≤ deg - 30 * ↑⌊deg / 30⌋
    linarith
  · show deg - 30 * ↑⌊deg / 30⌋ < 30
    linarith

/-- C4: the time parser accepts a string exactly when (after stripping, which
the parser itself performs on its input) it is `HH:MM` with two digit pairs,
`HH ≤ 23` and `MM ≤ 59`, and then it returns the pair `(HH, MM)`; in
particular `HH = 24` and `MM = 60` are rejected. -/
theorem C4_parse_time_correct :
    (∀ s hh mm, parse_time s = some (hh, mm) ↔
      ∃ a b d e : Char, trimChars s.data = [a, b, ':', d, e] ∧
        a.isDigit = true ∧ b.isDigit = true ∧ d.isDigit = true ∧ e.isDigit = true ∧
        hh = 10 * digitVal a + digitVal b ∧ mm = 10 * digitVal d + digitVal e ∧
        hh ≤ 23 ∧ mm ≤ 59) ∧
    parse_time "24:00" = none ∧ parse_time "12:60" = none :=
  ⟨parse_time_some_iff, by decide, by decide⟩

/-- Witness for C4: the iff applied at the concrete accepted input `"07:30"`. -/
theorem C4_parse_time_correct_witness : parse_time "07:30" = some (7, 30) :=
  (C4_parse_time_correct.1 "07:30" 7 30).mpr
    ⟨'0', '7', '3', '0', by decide, by decide, by decide, by decide, by decide,
     by decide, by decide, by decide, by decide⟩

/-- A concrete environment used to instantiate universally quantified theorems:
geocoding always misses, the timezone oracle always fails. -/
def defaultEnv : Env :=
  { openaiConfigured := false,
    geocode := fun _ _ => none,
    tzToUtc := fun _ _ => .error "ZoneInfoNotFoundError",
    julday := fun _ => 0,
    calcUt := fun _ _ => .ok 0,
    housesAsc := fun _ _ _ => .ok 0,
    genAnswer := fun _ _ => "" }

/-- C6: `/start` and `/reset` are handled before the state dispatch, so in every
state they replace the session with `new_session`, whose state is `ASK_DATE` and
whose data fields are all cleared. -/
theorem C6_start_reset_any_state (env : Env) (sess : Session) :
    step env sess (.message "/start") =
      .ok { sess := new_session, sent := [msgStart], chartAttempted := false } ∧
    step env sess (.message "/reset") =
      .ok { sess := new_session, sent := [msgReset], chartAttempted := false } ∧
    new_session.state = .ASK_DATE ∧
    new_session.data.date = none ∧ new_session.data.time = none ∧
    new_session.data.city = none ∧ new_session.data.country = none ∧
    new_session.data.tz = none ∧ new_session.data.lat = none ∧
    new_session.data.lon = none ∧ new_session.data.topic = none :=
  ⟨rfl, rfl, rfl, rfl, rfl, rfl, rfl, rfl, rfl, rfl, rfl⟩

/-- C10: a `topic:<name>` callback is honored in every state: for any session,
the topic field is set to the payload suffix after the first `:` and the state
moves unconditionally to `ASK_FREEFORM`. -/
theorem C10_topic_callback_any_state (env : Env) (sess : Session) (payload : String)
    (h : startsWithChars payload.data ("topic:".data) = true) :
    step env sess (.callback payload) =
      .ok { sess := { state := .ASK_FREEFORM,
                      data := { sess.data with
                                topic := some (String.mk
                                  ((payload.data.dropWhile (fun c => c ≠ ':')).drop 1)) } },
            sent := [msgTopicChosen], chartAttempted := false } := by
  simp only [step]
  rw [if_pos h]

/-- Witness for C10: a fresh session in `ASK_DATE` with no collected data jumps
straight to `ASK_FREEFORM` on the `topic:general` button. -/
theorem C10_topic_callback_any_state_witness :
    startsWithChars ("topic:general".data) ("topic:".data) = true ∧
    step defaultEnv new_session (.callback "topic:general") =
      .ok { sess := { state := .ASK_FREEFORM,
                      data := { new_session.data with
                                topic := some (String.mk
                                  ((("topic:general".data).dropWhile (fun c => c ≠ ':')).drop 1)) } },
            sent := [msgTopicChosen], chartAttempted := false } :=
  ⟨by decide, C10_topic_callback_any_state defaultEnv new_session "topic:general" (by decide)⟩

/-- C2 counterexample: `"Europe/Sub/Zone"` contains two `/` characters and no
whitespace, so the claim ("accepts iff exactly one `/` and no whitespace")
demands rejection; the code accepts it, stores it, and advances to `ASK_TOPIC`,
because it only requires at least one `/`. -/
theorem C2_counterexample :
    ("Europe/Sub/Zone".data.count '/') = 2 ∧
    ("Europe/Sub/Zone".data.all (fun c => !(isSpaceChar c))) = true ∧
    stepSess defaultEnv { state := .ASK_TZ, data := new_session.data }
        (.message "Europe/Sub/Zone") =
      some { state := .ASK_TOPIC, data := { new_session.data with tz := some "Europe/Sub/Zone" } } :=
  ⟨by decide, by decide, by decide⟩

/-- A non-empty, non-command message reaches the per-state dispatch. -/
theorem step_message_noncommand (env : Env) (sess : Session) (raw : String)
    (hne : pyStrip raw ≠ "")
    (h1 : pyLower (pyStrip raw) ≠ "/start") (h2 : pyLower (pyStrip raw) ≠ "start")
    (h3 : pyLower (pyStrip raw) ≠ "/reset") (h4 : pyLower (pyStrip raw) ≠ "reset") :
    step env sess (.message raw) = handle_state env sess (pyStrip raw) := by
  simp only [step]
  rw [if_neg hne, if_neg (not_or.mpr ⟨h1, h2⟩), if_neg (not_or.mpr ⟨h3, h4⟩)]

/-- C2 (amended): in `ASK_TZ`, a non-empty non-command input is accepted iff it
contains at least one `/` character and no space character `' '`; acceptance
stores the stripped string as the timezone and advances to `ASK_TOPIC`,
rejection leaves the session unchanged. -/
theorem C2_tz_validator_amended (env : Env) (sess : Session) (raw : String)
    (hstate : sess.state = .ASK_TZ)
    (hne : pyStrip raw ≠ "")
    (h1 : pyLower (pyStrip raw) ≠ "/start") (h2 : pyLower (pyStrip raw) ≠ "start")
    (h3 : pyLower (pyStrip raw) ≠ "/reset") (h4 : pyLower (pyStrip raw) ≠ "reset") :
    (step env sess (.message raw) =
        .ok { sess := { state := .ASK_TOPIC,
                        data := { sess.data with tz := some (pyStrip raw) } },
              sent := [msgAskTopic], chartAttempted := false } ↔
      ('/' ∈ (pyStrip raw).data ∧ ' ' ∉ (pyStrip raw).data)) ∧
    (step env sess (.message raw) =
        .ok { sess := sess, sent := [msgBadTz], chartAttempted := false } ↔
      ¬ ('/' ∈ (pyStrip raw).data ∧ ' ' ∉ (pyStrip raw).data)) := by
  obtain ⟨st, d⟩ := sess
  simp only at hstate
  subst hstate
  rw [step_message_noncommand env _ raw hne h1 h2 h3 h4]
  simp only [handle_state]
  by_cases hsl : '/' ∈ (pyStrip raw).data
  · by_cases hsp : ' ' ∈ (pyStrip raw).data
    · rw [if_pos (Or.inr (by simp [hsp]))]
      constructor
      · simp [hsp]
      · simp [hsp]
    · rw [if_neg (by simp [hsl, hsp])]
      constructor
      · simp [hsl, hsp]
      · simp [hsl, hsp]
  · rw [if_pos (Or.inl (by simp [hsl]))]
    constructor
    · simp [hsl]
    · simp [hsl]

/-- Witness for C2 (amended): `"Europe/Berlin"` is accepted from `ASK_TZ`. -/
theorem C2_tz_validator_amended_witness :
    step defaultEnv { state := .ASK_TZ, data := new_session.data } (.message "Europe/Berlin") =
      .ok { sess := { state := .ASK_TOPIC,
                      data := { new_session.data with tz := some (pyStrip "Europe/Berlin") } },
            sent := [msgAskTopic], chartAttempted := false } :=
  ((C2_tz_validator_amended defaultEnv { state := .ASK_TZ, data := new_session.data }
      "Europe/Berlin" rfl (by decide) (by decide) (by decide) (by decide) (by decide)).1).mpr
    (by decide)

/-- Environment whose generation key is configured but whose geocoder finds
nothing. -/
def envGeoMiss : Env := { defaultEnv with openaiConfigured := true }

/-- Environment whose generation key is configured, whose geocoder returns
(51, 0), and whose timezone oracle fails. -/
def envChartFail : Env :=
  { defaultEnv with openaiConfigured := true, geocode := fun _ _ => some (51, 0) }

/-- C7: in `ASK_FREEFORM`, when geocoding yields no result (or raises, which the
code folds into the same `None`), the machine regresses to `ASK_CITY` with the
session data — in particular `country`, `date` and `time` — fully preserved,
one miss message is sent, and `compute_chart` is never invoked. -/
theorem C7_geocode_miss_regresses_to_city (env : Env) (sess : Session) (raw : String)
    (hstate : sess.state = .ASK_FREEFORM)
    (hopenai : env.openaiConfigured = true)
    (hgeo : env.geocode sess.data.city sess.data.country = none)
    (hne : pyStrip raw ≠ "")
    (h1 : pyLower (pyStrip raw) ≠ "/start") (h2 : pyLower (pyStrip raw) ≠ "start")
    (h3 : pyLower (pyStrip raw) ≠ "/reset") (h4 : pyLower (pyStrip raw) ≠ "reset") :
    step env sess (.message raw) =
      .ok { sess := { state := .ASK_CITY, data := sess.data },
            sent := [msgGeoMiss], chartAttempted := false } := by
  obtain ⟨st, d⟩ := sess
  simp only at hstate
  subst hstate
  rw [step_message_noncommand env _ raw hne h1 h2 h3 h4]
  simp only [handle_state, stepFreeform, hopenai, hgeo]
  rfl

/-- Witness for C7: a concrete freeform session with a missing geocode result. -/
theorem C7_geocode_miss_regresses_to_city_witness :
    step envGeoMiss { state := .ASK_FREEFORM, data := new_session.data } (.message "why me") =
      .ok { sess := { state := .ASK_CITY, data := new_session.data },
            sent := [msgGeoMiss], chartAttempted := false } :=
  C7_geocode_miss_regresses_to_city envGeoMiss
    { state := .ASK_FREEFORM, data := new_session.data } "why me"
    rfl rfl rfl (by decide) (by decide) (by decide) (by decide) (by decide)

/-- C9: in `ASK_FREEFORM`, when geocoding succeeds but `compute_chart` fails for
any reason, exactly one user-facing error message is sent, no chart text is
produced, and the session is left in `ASK_FREEFORM` with its data unchanged
except for the freshly stored latitude/longitude. -/
theorem C9_chart_failure_single_error (env : Env) (sess : Session) (raw : String)
    (la lo : ℚ) (ds ts : String) (y mo dy hh mi : Nat) (e : String)
    (hstate : sess.state = .ASK_FREEFORM)
    (hopenai : env.openaiConfigured = true)
    (hgeo : env.geocode sess.data.city sess.data.country = some (la, lo))
    (hdate : sess.data.date = some ds) (htime : sess.data.time = some ts)
    (hds : splitInts3 '-' ds = some (y, mo, dy)) (hts : splitInts2 ':' ts = some (hh, mi))
    (hchart : compute_chart env la lo
        { year := y, month := mo, day := dy, hour := hh, minute := mi, second := 0 }
        sess.data.tz = .error e)
    (hne : pyStrip raw ≠ "")
    (h1 : pyLower (pyStrip raw) ≠ "/start") (h2 : pyLower (pyStrip raw) ≠ "start")
    (h3 : pyLower (pyStrip raw) ≠ "/reset") (h4 : pyLower (pyStrip raw) ≠ "reset") :
    step env sess (.message raw) =
      .ok { sess := { state := .ASK_FREEFORM,
                      data := { sess.data with lat := some la, lon := some lo } },
            sent := [msgChartError e], chartAttempted := true } := by
  obtain ⟨st, d⟩ := sess
  simp only at hstate
  subst hstate
  rw [step_message_noncommand env _ raw hne h1 h2 h3 h4]
  simp only at hgeo hdate htime hchart
  simp only [handle_state, stepFreeform, hopenai, hgeo, hdate, htime, hds, hts, hchart]
  rfl

/-- Witness for C9: a concrete freeform session whose timezone oracle rejects
the stored zone, so `compute_chart` fails. -/
theorem C9_chart_failure_single_error_witness :
    step envChartFail
        { state := .ASK_FREEFORM,
          data := { new_session.data with
                    date := some "1990-01-01", time := some "12:00", tz := some "Nowhere" } }
        (.message "why me") =
      .ok { sess := { state := .ASK_FREEFORM,
                      data := { { new_session.data with
                                  date := some "1990-01-01", time := some "12:00",
                                  tz := some "Nowhere" } with
                                lat := some 51, lon := some 0 } },
            sent := [msgChartError "ZoneInfoNotFoundError"], chartAttempted := true } :=
  C9_chart_failure_single_error envChartFail
    { state := .ASK_FREEFORM,
      data := { new_session.data with
                date := some "1990-01-01", time := some "12:00", tz := some "Nowhere" } }
    "why me" 51 0 "1990-01-01" "12:00" 1990 1 1 12 0 "ZoneInfoNotFoundError"
    rfl rfl rfl rfl rfl (by decide) (by decide) rfl
    (by decide) (by decide) (by decide) (by decide) (by decide)

/-- A successfully parsed date string cannot be empty or a `/start`/`/reset`
command (it strips to ten characters). -/
theorem parse_date_ok_not_command {s : String} {y m d : Nat}
    (h : parse_date s = .ok y m d) :
    pyStrip s ≠ "" ∧ pyLower (pyStrip s) ≠ "/start" ∧ pyLower (pyStrip s) ≠ "start" ∧
    pyLower (pyStrip s) ≠ "/reset" ∧ pyLower (pyStrip s) ≠ "reset" := by
  have hlen : (pyStrip s).data.length = 10 := by
    rw [pyStrip_data]; exact parse_date_ok_trim_length h
  have hlow : (pyLower (pyStrip s)).data.length = 10 := by
    simp [pyLower, hlen]
  refine ⟨fun he => ?_, fun he => ?_, fun he => ?_, fun he => ?_, fun he => ?_⟩
  · rw [he] at hlen; exact absurd hlen (by decide)
  · rw [he] at hlow; exact absurd hlow (by decide)
  · rw [he] at hlow; exact absurd hlow (by decide)
  · rw [he] at hlow; exact absurd hlow (by decide)
  · rw [he] at hlow; exact absurd hlow (by decide)

/-- A successfully parsed time string cannot be empty or a `/start`/`/reset`
command (it strips to a five-character string whose middle is `:`). -/
theorem parse_time_some_not_command {s : String} {hh mm : Nat}
    (h : parse_time s = some (hh, mm)) :
    pyStrip s ≠ "" ∧ pyLower (pyStrip s) ≠ "/start" ∧ pyLower (pyStrip s) ≠ "start" ∧
    pyLower (pyStrip s) ≠ "/reset" ∧ pyLower (pyStrip s) ≠ "reset" := by
  obtain ⟨a, b, d, e, hlist, -, -, -, -, -, -, -, -⟩ := (parse_time_some_iff s hh mm).mp h
  have hdata : (pyStrip s).data = [a, b, ':', d, e] := by rw [pyStrip_data, hlist]
  have hlow : (pyLower (pyStrip s)).data
      = [a.toLower, b.toLower, ':', d.toLower, e.toLower] := by
    have : Char.toLower ':' = ':' := by decide
    simp [pyLower, hdata, this]
  refine ⟨fun he => ?_, fun he => ?_, fun he => ?_, fun he => ?_, fun he => ?_⟩
  · rw [he] at hdata; exact absurd hdata (by simp)
  · rw [he] at hlow; exact absurd hlow (by simp)
  · rw [he] at hlow
    have : (("start" : String).data)[2]? = some 'a' := by decide
    rw [hlow] at this
    exact absurd this (by simp)
  · rw [he] at hlow; exact absurd hlow (by simp)
  · rw [he] at hlow
    have : (("reset" : String).data)[2]? = some 's' := by decide
    rw [hlow] at this
    exact absurd this (by simp)

/-- C5: from a fresh session, a valid date, a valid time, `"Berlin, Germany"`,
`"Europe/Berlin"` and a topic selection reach `ASK_FREEFORM` in exactly five
accepted transitions; the two-token city input sets `country` immediately and
the machine jumps from `ASK_CITY` directly to `ASK_TZ`, skipping `ASK_COUNTRY`. -/
theorem C5_happy_path_skips_country (env : Env) (ds ts : String) (y mo dy hh mi : Nat)
    (hd : parse_date ds = .ok y mo dy) (ht : parse_time ts = some (hh, mi)) :
    ∃ s1 s2 s3 s4 s5 : Session,
      step env new_session (.message ds) =
        .ok { sess := s1, sent := [msgAskTime], chartAttempted := false } ∧
      s1.state = .ASK_TIME ∧
      step env s1 (.message ts) =
        .ok { sess := s2, sent := [msgAskCity], chartAttempted := false } ∧
      s2.state = .ASK_CITY ∧
      step env s2 (.message "Berlin, Germany") =
        .ok { sess := s3, sent := [msgAskTzAfterCity], chartAttempted := false } ∧
      s3.state = .ASK_TZ ∧ s3.data.city = some "Berlin" ∧ s3.data.country = some "Germany" ∧
      step env s3 (.message "Europe/Berlin") =
        .ok { sess := s4, sent := [msgAskTopic], chartAttempted := false } ∧
      s4.state = .ASK_TOPIC ∧
      step env s4 (.callback "topic:general") =
        .ok { sess := s5, sent := [msgTopicChosen], chartAttempted := false } ∧
      s5.state = .ASK_FREEFORM := by
  obtain ⟨hne, hc1, hc2, hc3, hc4⟩ := parse_date_ok_not_command hd
  obtain ⟨hne', hc1', hc2', hc3', hc4'⟩ := parse_time_some_not_command ht
  refine ⟨⟨.ASK_TIME,
            { new_session.data with date := some (pad4 y ++ "-" ++ pad2 mo ++ "-" ++ pad2 dy) }⟩,
          ⟨.ASK_CITY,
            { new_session.data with date := some (pad4 y ++ "-" ++ pad2 mo ++ "-" ++ pad2 dy),
                                    time := some (pad2 hh ++ ":" ++ pad2 mi) }⟩,
          ⟨.ASK_TZ,
            { new_session.data with date := some (pad4 y ++ "-" ++ pad2 mo ++ "-" ++ pad2 dy),
                                    time := some (pad2 hh ++ ":" ++ pad2 mi),
                                    city := some "Berlin", country := some "Germany" }⟩,
          ⟨.ASK_TOPIC,
            { new_session.data with date := some (pad4 y ++ "-" ++ pad2 mo ++ "-" ++ pad2 dy),
                                    time := some (pad2 hh ++ ":" ++ pad2 mi),
                                    city := some "Berlin", country := some "Germany",
                                    tz := some "Europe/Berlin" }⟩,
          ⟨.ASK_FREEFORM,
            { new_session.data with date := some (pad4 y ++ "-" ++ pad2 mo ++ "-" ++ pad2 dy),
                                    time := some (pad2 hh ++ ":" ++ pad2 mi),
                                    city := some "Berlin", country := some "Germany",
                                    tz := some "Europe/Berlin", topic := some "general" }⟩,
          ?_, rfl, ?_, rfl, ?_, rfl, rfl, rfl, ?_, rfl, ?_, rfl⟩
  · rw [step_message_noncommand env _ ds hne hc1 hc2 hc3 hc4]
    simp only [handle_state, new_session, parse_date_pyStrip, hd]
  · rw [step_message_noncommand env _ ts hne' hc1' hc2' hc3' hc4']
    simp only [handle_state, parse_time_pyStrip, ht]
  · rfl
  · rfl
  · rfl

/-- Witness for C5: the happy path at the concrete inputs `"1992-08-14"` and
`"07:30"`. -/
theorem C5_happy_path_skips_country_witness :
    ∃ s1 s2 s3 s4 s5 : Session,
      step defaultEnv new_session (.message "1992-08-14") =
        .ok { sess := s1, sent := [msgAskTime], chartAttempted := false } ∧
      s1.state = .ASK_TIME ∧
      step defaultEnv s1 (.message "07:30") =
        .ok { sess := s2, sent := [msgAskCity], chartAttempted := false } ∧
      s2.state = .ASK_CITY ∧
      step defaultEnv s2 (.message "Berlin, Germany") =
        .ok { sess := s3, sent := [msgAskTzAfterCity], chartAttempted := false } ∧
      s3.state = .ASK_TZ ∧ s3.data.city = some "Berlin" ∧ s3.data.country = some "Germany" ∧
      step defaultEnv s3 (.message "Europe/Berlin") =
        .ok { sess := s4, sent := [msgAskTopic], chartAttempted := false } ∧
      s4.state = .ASK_TOPIC ∧
      step defaultEnv s4 (.callback "topic:general") =
        .ok { sess := s5, sent := [msgTopicChosen], chartAttempted := false } ∧
      s5.state = .ASK_FREEFORM :=
  C5_happy_path_skips_country defaultEnv "1992-08-14" "07:30" 1992 8 14 7 30
    (by decide) (by decide)

/-! ## Newline-splitting lemmas for the rendered chart -/

theorem string_data_append (a b : String) : (a ++ b).data = a.data ++ b.data := rfl

theorem splitOnChar_no_sep {sep : Char} {l : List Char} (h : sep ∉ l) :
    splitOnChar sep l = [l] := by
  induction l with
  | nil => rfl
  | cons c rest ih =>
    have hc : ¬ c = sep := fun hc => h (hc ▸ List.mem_cons_self c rest)
    rw [splitOnChar, if_neg hc, ih (fun hm => h (List.mem_cons_of_mem c hm))]

theorem splitOnChar_append_sep {sep : Char} {a : List Char} (b : List Char) (h : sep ∉ a) :
    splitOnChar sep (a ++ sep :: b) = a :: splitOnChar sep b := by
  induction a with
  | nil =>
    show splitOnChar sep (sep :: b) = [] :: splitOnChar sep b
    rw [splitOnChar, if_pos rfl]
  | cons c rest ih =>
    have hc : ¬ c = sep := fun hc => h (hc ▸ List.mem_cons_self c rest)
    rw [List.cons_append, splitOnChar, if_neg hc,
        ih (fun hm => h (List.mem_cons_of_mem c hm))]

theorem splitOnChar_pyJoin (ls : List String) (hne : ls ≠ [])
    (h : ∀ l ∈ ls, '\n' ∉ l.data) :
    splitOnChar '\n' (pyJoin "\n" ls).data = ls.map String.data := by
  induction ls with
  | nil => exact absurd rfl hne
  | cons l ls ih =>
    cases ls with
    | nil =>
      show splitOnChar '\n' l.data = [l.data]
      exact splitOnChar_no_sep (h l (List.mem_cons_self l []))
    | cons l' ls' =>
      have hdata : (pyJoin "\n" (l :: l' :: ls')).data
          = l.data ++ '\n' :: (pyJoin "\n" (l' :: ls')).data := by
        show (l ++ "\n" ++ pyJoin "\n" (l' :: ls')).data = _
        rw [string_data_append, string_data_append, List.append_assoc]
        rfl
      rw [hdata, splitOnChar_append_sep _ (h l (List.mem_cons_self l _)),
          ih (by simp) (fun x hx => h x (List.mem_cons_of_mem l hx))]
      rfl

theorem natDigitsAux_mem {fuel n : Nat} {c : Char} (h : c ∈ natDigitsAux fuel n) :
    ∃ k, k < 10 ∧ c = digitChar k := by
  induction fuel generalizing n with
  | zero => cases h
  | succ fuel ih =>
    rw [natDigitsAux] at h
    split at h
    next hlt =>
      rw [List.mem_singleton] at h
      exact ⟨n, hlt, h⟩
    next =>
      rw [List.mem_append, List.mem_singleton] at h
      rcases h with h | h
      · exact ih h
      · exact ⟨n % 10, Nat.mod_lt _ (by omega), h⟩

theorem digitChar_mem_digits {k : Nat} (h : k < 10) : digitChar k ∈ ("0123456789").data := by
  unfold digitChar
  interval_cases k <;> decide

theorem natRepr_no_newline (n : Nat) : '\n' ∉ (natRepr n).data := by
  intro h
  obtain ⟨k, hk, hc⟩ := natDigitsAux_mem h
  have hmem := digitChar_mem_digits hk
  rw [← hc] at hmem
  exact absurd hmem (by decide)

theorem pyFormat1f_no_newline (q : ℚ) : '\n' ∉ (pyFormat1f q).data := by
  unfold pyFormat1f
  intro h
  rw [string_data_append, string_data_append, string_data_append] at h
  rw [List.mem_append, List.mem_append, List.mem_append] at h
  rcases h with ((h | h) | h) | h
  · split at h
    · exact absurd h (by decide)
    · exact absurd h (by decide)
  · exact natRepr_no_newline _ h
  · exact absurd h (by decide)
  · exact natRepr_no_newline _ h

theorem sign_no_newline (i : Nat) : '\n' ∉ (signs.getD i "").data := by
  have hall : ∀ s ∈ signs, '\n' ∉ s.data := by decide
  by_cases hi : i < signs.length
  · have hmem : signs.getD i "" ∈ signs := by
      rw [List.getD_eq_getElem?_getD, List.getElem?_eq_getElem hi]
      exact List.getElem_mem _
    exact hall _ hmem
  · rw [List.getD_eq_default _ _ (by omega)]
    exact (by decide)

theorem placementLine_no_newline (name : String) (deg : ℚ) (hn : '\n' ∉ name.data) :
    '\n' ∉ (placementLine name deg).data := by
  unfold placementLine
  intro h
  rw [string_data_append, string_data_append, string_data_append, string_data_append,
      string_data_append] at h
  rw [List.mem_append, List.mem_append, List.mem_append, List.mem_append,
      List.mem_append] at h
  rcases h with ((((h | h) | h) | h) | h) | h
  · exact hn h
  · exact absurd h (by decide)
  · exact sign_no_newline _ h
  · exact absurd h (by decide)
  · exact pyFormat1f_no_newline _ h
  · exact absurd h (by decide)

/-- C8: for every chart, the rendered summary splits on newlines into exactly 11
lines: the Ascendant line first, then one line per body in the fixed order
Sun, Moon, Mercury, Venus, Mars, Jupiter, Saturn, Uranus, Neptune, Pluto, each
line of the form `"<Name>: <Sign> <within:.1f>°"`. -/
theorem C8_chart_to_text_eleven_lines (chart : Chart) :
    splitOnChar '\n' (chart_to_text chart).data =
      (placementLine "Ascendant" chart.asc ::
        bodyOrder.map (fun b => placementLine (Body.bname b) (chart.positions b))).map
        String.data ∧
    (splitOnChar '\n' (chart_to_text chart).data).length = 11 := by
  have hlines : ∀ l ∈ (placementLine "Ascendant" chart.asc ::
      bodyOrder.map (fun b => placementLine (Body.bname b) (chart.positions b))),
      '\n' ∉ l.data := by
    intro l hl
    rcases List.mem_cons.mp hl with rfl | hl
    · exact placementLine_no_newline _ _ (by decide)
    · obtain ⟨b, _, rfl⟩ := List.mem_map.mp hl
      exact placementLine_no_newline _ _ (by cases b <;> decide)
  have h1 := splitOnChar_pyJoin
    (placementLine "Ascendant" chart.asc ::
      bodyOrder.map (fun b => placementLine (Body.bname b) (chart.positions b)))
    (by simp) hlines
  have h2 : chart_to_text chart =
      pyJoin "\n" (placementLine "Ascendant" chart.asc ::
        bodyOrder.map (fun b => placementLine (Body.bname b) (chart.positions b))) := rfl
  rw [h2, h1]
  refine ⟨rfl, ?_⟩
  rw [List.length_map, List.length_cons, List.length_map]
  rfl
